import Mathlib

/-!
# Verification of the IESCO smart-billing data generator

Shallow embedding, over `ℚ`, of the core simulation logic of the
`iesco_smart_billing` repository: the per-timestamp reading step of the
v1.1 and v1.2 generators (including the injected data-quality defects),
the monthly billing reconciliation and slab-tariff calculation, the
payment simulator, the transformer-upgrade event and the meter-number
creation paths, plus the v2.0 parallel per-meter pipeline.

Python's `round(x, n)` (round half to even) is modelled by `rhe` / `rnd2`
/ `rnd3`; random draws are passed as explicit parameters.
-/

namespace IESCO

/-! ## Rounding -/

/-- Round half to even: the integer nearest to `q`, ties going to the even
integer.  Models Python's built-in `round`. -/
def rhe (q : ℚ) : ℤ :=
  if q - (⌊q⌋ : ℚ) < 1/2 then ⌊q⌋
  else if (1:ℚ)/2 < q - (⌊q⌋ : ℚ) then ⌊q⌋ + 1
  else if ⌊q⌋ % 2 = 0 then ⌊q⌋ else ⌊q⌋ + 1

/-- Python `round(x, 2)` on `ℚ`. -/
def rnd2 (q : ℚ) : ℚ := (rhe (q * 100) : ℚ) / 100

/-- Python `round(x, 3)` on `ℚ`. -/
def rnd3 (q : ℚ) : ℚ := (rhe (q * 1000) : ℚ) / 1000

/-! ## Data-quality defect classification

Both v1.1 and v1.2 keep an ordered `issue_probabilities` dict and classify
one uniform draw `rand_val` against its cumulative prefix sums; the first
band containing the draw wins, and a draw beyond every band is "Normal".
-/

/-- The keys of the generators' `issue_probabilities` dicts. -/
inductive Issue
  | missing_reading
  | negative_reading
  | zero_reading
  | abnormal_spike
  | voltage_sag
  | frequency_variation
  | signal_drop
  | battery_fault
  | meter_tamper
  | reverse_energy
deriving DecidableEq

/-- `issue_probabilities` of `datagenerator_v1.1.py` (insertion order). -/
def issueProbs_v11 : List (Issue × ℚ) :=
  [(.missing_reading, 2/100), (.negative_reading, 5/1000),
   (.zero_reading, 1/100), (.abnormal_spike, 1/100),
   (.voltage_sag, 15/1000), (.frequency_variation, 1/100),
   (.signal_drop, 2/100), (.battery_fault, 5/1000)]

/-- `issue_probabilities` of `datagenerator_v1.2.py` (insertion order);
v1.1's table extended with tamper and reverse energy. -/
def issueProbs_v12 : List (Issue × ℚ) :=
  issueProbs_v11 ++ [(.meter_tamper, 3/1000), (.reverse_energy, 2/1000)]

/-- The cumulative-threshold scan shared by `_determine_quality_flag`
(v1.1) and `_apply_data_quality_issues` (v1.2): walk the table keeping the
running sum `acc` of probabilities and return the first issue whose band
contains `r`. -/
def classifyFrom (r acc : ℚ) : List (Issue × ℚ) → Option Issue
  | [] => none
  | (name, p) :: rest => if r < acc + p then some name else classifyFrom r (acc + p) rest

/-- First defect band (in table order) that the uniform draw `r` falls
into; `none` means a Normal reading. -/
def classifyIssue (probs : List (Issue × ℚ)) (r : ℚ) : Option Issue :=
  classifyFrom r 0 probs

/-- Python's `issue.replace('_', ' ').title()` rendering used by v1.1's
`_determine_quality_flag` (and the literal flags of v1.2's
`_apply_data_quality_issues`): the flag string attached to a classified
issue, "Normal" when no band was hit. -/
def flagOfIssue (o : Option Issue) : String :=
  match o with
  | none => "Normal"
  | some .missing_reading => "Missing Reading"
  | some .negative_reading => "Negative Reading"
  | some .zero_reading => "Zero Reading"
  | some .abnormal_spike => "Abnormal Spike"
  | some .voltage_sag => "Voltage Sag"
  | some .frequency_variation => "Frequency Variation"
  | some .signal_drop => "Signal Drop"
  | some .battery_fault => "Battery Fault"
  | some .meter_tamper => "Meter Tamper"
  | some .reverse_energy => "Reverse Energy"

/-! ## String containment (Python's `'A-1' in tariff`) -/

/-- `startsWithChars n h` holds when `n` is an initial segment of `h`. -/
def startsWithChars : List Char → List Char → Bool
  | [], _ => true
  | _ :: _, [] => false
  | a :: as, b :: bs => a == b && startsWithChars as bs

/-- `hasSubChars n h`: `n` occurs contiguously somewhere in `h`. -/
def hasSubChars (n : List Char) : List Char → Bool
  | [] => startsWithChars n []
  | b :: bs => startsWithChars n (b :: bs) || hasSubChars n bs

/-- Python's substring test `needle in hay`. -/
def strHas (needle hay : String) : Bool := hasSubChars needle.data hay.data

/-! ## Billing engine (v1.1 `calculate_bill`, v1.2 `_calculate_bill`) -/

/-- One slab: unit limit (`none` = `float('inf')`) and per-unit rate. -/
abbrev Slab := Option ℚ × ℚ

/-- The slab accumulation loop of `calculate_bill`: each iteration takes
`min(remaining, limit)` units at the slab's rate and subtracts them from
`remaining`, stopping when `remaining ≤ 0`. -/
def slabCharges (remaining : ℚ) : List Slab → ℚ
  | [] => 0
  | (limit, rate) :: rest =>
    if remaining ≤ 0 then 0
    else
      let units := match limit with
        | none => remaining
        | some l => min remaining l
      units * rate + slabCharges (remaining - units) rest

/-- Slab table and fixed charge selected by v1.1's `calculate_bill` from
the tariff string (substring matching, in source order) and connected
load. -/
def tariffCfg_v11 (tariff : String) (load : ℚ) : List Slab × ℚ :=
  if strHas "A-1" tariff then
    ([(some 100, 579/100), (some 200, 811/100), (some 300, 102/10),
      (some 400, 16), (some 500, 18), (none, 21)],
     if load < 5 then 50 else 100)
  else if strHas "A-2" tariff then
    ([(some 100, 16), (some 300, 18), (none, 21)], 250 * load)
  else if strHas "B-1" tariff then
    ([(none, 14)], 200 * load)
  else
    ([(none, 16)], 300 * load)

/-- Slab table and fixed charge selected by v1.2's `_calculate_bill`;
extends v1.1's table with B-2 / C-1 / default branches. -/
def tariffCfg_v12 (tariff : String) (load : ℚ) : List Slab × ℚ :=
  if strHas "A-1" tariff then
    ([(some 100, 579/100), (some 200, 811/100), (some 300, 102/10),
      (some 400, 16), (some 500, 18), (none, 21)],
     if load < 5 then 50 else 100)
  else if strHas "A-2" tariff then
    ([(some 100, 16), (some 300, 18), (none, 21)], 250 * load)
  else if strHas "B-1" tariff then
    ([(none, 14)], 200 * load)
  else if strHas "B-2" tariff then
    ([(none, 16)], 300 * load)
  else if strHas "C-1" tariff then
    ([(none, 12)], 100 * load)
  else
    ([(none, 18)], 400 * load)

/-- Unrounded variable charges of v1.1's `calculate_bill`. -/
def rawVariable_v11 (consumption : ℚ) (tariff : String) (load : ℚ) : ℚ :=
  slabCharges consumption (tariffCfg_v11 tariff load).1

/-- Unrounded fixed charge of v1.1's `calculate_bill`. -/
def rawFixed_v11 (tariff : String) (load : ℚ) : ℚ :=
  (tariffCfg_v11 tariff load).2

/-- GST: 18% of variable + fixed. -/
def rawGst (v f : ℚ) : ℚ := (v + f) * (18/100)

/-- Electricity duty: 1.5% of variable charges. -/
def rawDuty (v : ℚ) : ℚ := v * (15/1000)

/-- TV licence fee: Rs 35 when the draw hits (`random.random() > 0.7`). -/
def rawTvFee (tvDraw : Bool) : ℚ := if tvDraw then 35 else 0

/-- Late-payment surcharge: 5% of variable + fixed when the draw hits. -/
def rawLate (lateDraw : Bool) (v f : ℚ) : ℚ := if lateDraw then (v + f) * (5/100) else 0

/-- A bill record as stored by `calculate_bill`: every monetary field is
rounded to 2 decimal places, the total being rounded from the *unrounded*
component sum. -/
structure Bill where
  units_consumed : ℚ
  variable_charges : ℚ
  fixed_charges : ℚ
  gst : ℚ
  electricity_duty : ℚ
  tv_fee : ℚ
  late_payment_surcharge : ℚ
  total_amount : ℚ
  amount_within_due_date : ℚ
  amount_after_due_date : ℚ
deriving DecidableEq

/-- v1.1's `calculate_bill` (monetary fields only; `tvDraw` and `lateDraw`
stand for the two `random.random()` comparisons). -/
def calculate_bill_v11 (consumption : ℚ) (tariff : String) (load : ℚ)
    (tvDraw lateDraw : Bool) : Bill :=
  let v := rawVariable_v11 consumption tariff load
  let f := rawFixed_v11 tariff load
  let gst := rawGst v f
  let duty := rawDuty v
  let tv := rawTvFee tvDraw
  let late := rawLate lateDraw v f
  let total := v + f + gst + duty + tv + late
  { units_consumed := rnd2 consumption
    variable_charges := rnd2 v
    fixed_charges := rnd2 f
    gst := rnd2 gst
    electricity_duty := rnd2 duty
    tv_fee := rnd2 tv
    late_payment_surcharge := rnd2 late
    total_amount := rnd2 total
    amount_within_due_date := rnd2 total
    amount_after_due_date := rnd2 (total * (105/100)) }

/-- Modelled from the spec: the slab table the v1.1 comments document
("Up to 100 units / 101-200 units / 201-300 units / ...") — cumulative
brackets, i.e. bracket widths 100 each up to 500 units — applied to a
consumption figure. -/
def specSlabVariableCharges (consumption : ℚ) : ℚ :=
  slabCharges consumption
    [(some 100, 579/100), (some 100, 811/100), (some 100, 102/10),
     (some 100, 16), (some 100, 18), (none, 21)]

/-! ## Monthly billing reconciliation (C1) -/

/-- One emitted reading row, restricted to the fields billing consults. -/
structure Reading where
  reading_kwh : ℚ
  energy_consumed_kwh : ℚ
  flag : String
deriving DecidableEq

/-- v1.1 `generate_monthly_bills` consumption reconciliation for one
(meter, month) with a nonempty reading list: difference of the month's
overall first and last register values, falling back — when the register
went backward or ended negative — to the sum of the *positive*
`energy_consumed_kwh` values (any flag); clamped to `≥ 0`. -/
def monthlyConsumption_v11 (rs : List Reading) : ℚ :=
  let first := ((rs.head?).map Reading.reading_kwh).getD 0
  let last := ((rs.getLast?).map Reading.reading_kwh).getD 0
  let c :=
    if last < first ∨ last < 0 then
      ((rs.filter fun x => 0 < x.energy_consumed_kwh).map Reading.energy_consumed_kwh).sum
    else last - first
  max 0 c

/-- v1.2 `generate_monthly_bills_dynamic` consumption reconciliation:
with more than one "Normal"-flagged reading, difference of the first and
last *Normal* register values (falling back to the sum of Normal
consumption on register decrease); with at most one Normal reading, the
sum of `energy_consumed_kwh` over *all* of the month's readings,
whatever their flags; clamped to `≥ 0`. -/
def monthlyConsumption_v12 (rs : List Reading) : ℚ :=
  let valid := rs.filter fun x => x.flag == "Normal"
  let c :=
    if 1 < valid.length then
      let first := ((valid.head?).map Reading.reading_kwh).getD 0
      let last := ((valid.getLast?).map Reading.reading_kwh).getD 0
      if first ≤ last then last - first
      else (valid.map Reading.energy_consumed_kwh).sum
    else (rs.map Reading.energy_consumed_kwh).sum
  max 0 c

/-- The consumption-reconciliation rule exactly as claim C1 states it:
last register value of the month minus the first when that difference is
non-negative, otherwise the sum of interval consumption over the
"Normal"-flagged readings; clamped to `≥ 0`. -/
def claimConsumption (rs : List Reading) : ℚ :=
  let first := ((rs.head?).map Reading.reading_kwh).getD 0
  let last := ((rs.getLast?).map Reading.reading_kwh).getD 0
  let c :=
    if 0 ≤ last - first then last - first
    else ((rs.filter fun x => x.flag == "Normal").map Reading.energy_consumed_kwh).sum
  max 0 c

/-- The reconciliation rule C1 amends to for v1.2 (claim vocabulary):
branch on the number of Normal readings, using the Normal sub-sequence's
registers when at least two exist and the whole month's consumption sum
otherwise; the final figure clamped to `≥ 0`. -/
def amendedConsumption_v12 (rs : List Reading) : ℚ :=
  let normals := rs.filter fun x => x.flag == "Normal"
  let firstN := ((normals.head?).map Reading.reading_kwh).getD 0
  let lastN := ((normals.getLast?).map Reading.reading_kwh).getD 0
  max 0 <|
    if 2 ≤ rs.countP (fun x => x.flag == "Normal") then
      if 0 ≤ lastN - firstN then lastN - firstN
      else (normals.map Reading.energy_consumed_kwh).sum
    else (rs.map Reading.energy_consumed_kwh).sum

/-- The reconciliation rule C1 amends to for v1.1 (claim vocabulary):
register difference of the whole month when the register did not go
backward and did not end negative, otherwise the sum of the strictly
positive interval consumptions of all readings; clamped to `≥ 0`. -/
def amendedConsumption_v11 (rs : List Reading) : ℚ :=
  let first := ((rs.head?).map Reading.reading_kwh).getD 0
  let last := ((rs.getLast?).map Reading.reading_kwh).getD 0
  max 0 <|
    if first ≤ last ∧ 0 ≤ last then last - first
    else ((rs.filter fun x => 0 < x.energy_consumed_kwh).map Reading.energy_consumed_kwh).sum

/-! ## Reading-generator step, v1.1 (`generate_readings`)

State carried across one meter's timestamps: the running
`cumulative_reading` and `previous_reading` (the register as of the last
*emitted* row).  Inputs per timestamp: the fully-adjusted consumption draw
`c`, the defect draw `r`, and — only used in the spike branch — the
`random.uniform(5, 10)` factor. -/

/-- Per-meter mutable state of v1.1's reading loop. -/
structure RegState where
  cum : ℚ
  prev : ℚ
deriving DecidableEq

/-- One iteration of v1.1's per-timestamp loop.  `cumulative_reading` is
incremented by the draw *before* the defect classification; the missing
branch `continue`s (emitting nothing) and the Normal branch increments it
a second time. -/
def step_v11 (s : RegState) (c r spikeF : ℚ) : Option Reading × RegState :=
  match classifyIssue issueProbs_v11 r with
  | some .missing_reading =>
      (none, ⟨s.cum + c, s.prev⟩)
  | some .negative_reading =>
      (some ⟨rnd3 (s.prev + c), rnd3 (-c), "Negative Reading"⟩, ⟨s.prev + c, s.prev + c⟩)
  | some .zero_reading =>
      (some ⟨rnd3 (s.cum + c), rnd3 0, "Zero Reading"⟩, ⟨s.cum + c, s.cum + c⟩)
  | some .abnormal_spike =>
      (some ⟨rnd3 (s.cum + c + c * spikeF), rnd3 (c * spikeF), "Abnormal Spike"⟩,
       ⟨s.cum + c + c * spikeF, s.cum + c + c * spikeF⟩)
  | some .voltage_sag =>
      (some ⟨rnd3 (s.cum + c), rnd3 c, "Voltage Sag"⟩, ⟨s.cum + c, s.cum + c⟩)
  | some .frequency_variation =>
      (some ⟨rnd3 (s.cum + c), rnd3 c, "Frequency Variation"⟩, ⟨s.cum + c, s.cum + c⟩)
  | some .signal_drop =>
      (some ⟨rnd3 (s.cum + c), rnd3 c, "Signal Drop"⟩, ⟨s.cum + c, s.cum + c⟩)
  | some .battery_fault =>
      (some ⟨rnd3 (s.cum + c), rnd3 c, "Battery Fault"⟩, ⟨s.cum + c, s.cum + c⟩)
  | _ =>
      (some ⟨rnd3 (s.cum + c + c), rnd3 c, "Normal"⟩, ⟨s.cum + c + c, s.cum + c + c⟩)

/-! ## Reading-generator step, v1.2 (`generate_readings_dynamic` +
`_apply_data_quality_issues`)

v1.2 reassigns `previous_reading = cumulative_reading` after *every*
emitted row and every row is emitted, so the loop state collapses to a
single register value. -/

/-- One iteration of v1.2's per-timestamp loop: add the draw to the
register, then let `_apply_data_quality_issues` adjust consumption,
register and flag; every timestamp emits a row. -/
def step_v12 (cum c r : ℚ) : Reading × ℚ :=
  match classifyIssue issueProbs_v12 r with
  | some .missing_reading =>
      (⟨rnd3 (cum + c), rnd3 c, "Missing Reading"⟩, cum + c)
  | some .negative_reading =>
      (⟨rnd3 (cum - c), rnd3 (-c), "Negative Reading"⟩, cum - c)
  | some .zero_reading =>
      (⟨rnd3 cum, rnd3 0, "Zero Reading"⟩, cum)
  | some .abnormal_spike =>
      (⟨rnd3 (cum + c + c * 9), rnd3 (c * 10), "Abnormal Spike"⟩, cum + c + c * 9)
  | some .voltage_sag =>
      (⟨rnd3 (cum + c), rnd3 c, "Voltage Sag"⟩, cum + c)
  | some .frequency_variation =>
      (⟨rnd3 (cum + c), rnd3 c, "Frequency Variation"⟩, cum + c)
  | some .signal_drop =>
      (⟨rnd3 (cum + c), rnd3 c, "Signal Drop"⟩, cum + c)
  | some .battery_fault =>
      (⟨rnd3 (cum + c), rnd3 c, "Battery Fault"⟩, cum + c)
  | some .meter_tamper =>
      (⟨rnd3 (cum + c * (3/10)), rnd3 (c * (3/10)), "Meter Tamper"⟩, cum + c * (3/10))
  | some .reverse_energy =>
      (⟨rnd3 (cum - c), rnd3 (-c), "Reverse Energy"⟩, cum - c)
  | none =>
      (⟨rnd3 (cum + c), rnd3 c, "Normal"⟩, cum + c)

/-- Run v1.2's reading loop over a list of (consumption draw, defect draw)
pairs, emitting the reading rows in timestamp order. -/
def run_v12 (cum : ℚ) : List (ℚ × ℚ) → List Reading
  | [] => []
  | (c, r) :: rest =>
    ((step_v12 cum c r).1) :: run_v12 (step_v12 cum c r).2 rest

/-! ## Parallel variant (v2.0, `_generate_month_readings` /
`_generate_single_reading`, fallback path) -/

/-- Reading row emitted by the parallel pipeline. -/
structure PReading where
  ts : ℕ
  reading_kwh : ℚ
  consumption_kwh : ℚ
  status : String
deriving DecidableEq

/-- Per-meter state of the parallel pipeline: the meter dict fields the
reading generator consults (`sanctioned_load_kw`, mutable
`last_reading`). -/
structure PMeter where
  sanctioned_load_kw : ℚ
  last_reading : ℚ
deriving DecidableEq

/-- The fallback consumption pattern of `_generate_single_reading`:
`base_load` scaled by a uniform draw whose range depends on the hour band
(evening / morning / rest of day); `u` is the drawn factor. -/
def fallbackConsumption (load : ℚ) (hour : ℕ) (u : ℚ) : ℚ :=
  if 18 ≤ hour ∧ hour ≤ 23 then load * u
  else if 6 ≤ hour ∧ hour ≤ 9 then load * u
  else load * u

/-- `_generate_single_reading`: compute consumption, advance the meter's
`last_reading` register by `consumption * (15/60)`, emit one row with
status `"normal"`. -/
def generateSingleReading (m : PMeter) (ts hour : ℕ) (u : ℚ) : PReading × PMeter :=
  let consumption := fallbackConsumption m.sanctioned_load_kw hour u
  let current := m.last_reading + consumption * (15/60)
  (⟨ts, rnd2 current, rnd3 (consumption * (15/60)), "normal"⟩,
   ⟨m.sanctioned_load_kw, current⟩)

/-- `_generate_month_readings`: one reading per timestamp of the sampling
grid, threading the meter state. -/
def generateMonthReadings (m : PMeter) : List (ℕ × ℕ × ℚ) → List PReading × PMeter
  | [] => ([], m)
  | (ts, hour, u) :: rest =>
    let r := generateSingleReading m ts hour u
    let rec' := generateMonthReadings r.2 rest
    (r.1 :: rec'.1, rec'.2)

/-! ## Transformer upgrade (v1.2 `simulate_monthly_events` step 4, v1.3
`simulate_monthly_events_region` step 3) -/

/-- A transformer record, restricted to the fields the upgrade mutates;
history entries are (old rating, new rating) pairs. -/
structure Transformer where
  rating_kva : ℚ
  capacity_utilization_pct : ℚ
  transformer_type : String
  upgrade_history : List (ℚ × ℚ)
deriving DecidableEq

/-- `transformer_specs['distribution_transformer']['types']` as
(rating_kva, upgrade_to) pairs, in source order. -/
def distUpgradeTiers : List (ℚ × ℚ) :=
  [(1500, 2000), (1000, 1500), (750, 1000), (500, 750), (250, 400), (100, 200)]

/-- The `for ... else` upgrade-path search: first catalog tier whose
rating equals the old rating. -/
def findTier (old : ℚ) : List (ℚ × ℚ) → Option (ℚ × ℚ)
  | [] => none
  | t :: rest => if t.1 = old then some t else findTier old rest

/-- New rating for an upgraded transformer: the catalog tier's
`upgrade_to`, or 1.5 × the old rating if the catalog has no tier for it. -/
def upgradeRating (old : ℚ) : ℚ :=
  match findTier old distUpgradeTiers with
  | some t => t.2
  | none => old * (3/2)

/-- The mutation applied to a transformer selected for upgrade: new
rating, utilization rescaled by `old_rating / new_rating`, one history
entry appended. -/
def upgradeTransformer (t : Transformer) : Transformer :=
  let newR := upgradeRating t.rating_kva
  { t with
      rating_kva := newR
      capacity_utilization_pct := t.capacity_utilization_pct * (t.rating_kva / newR)
      upgrade_history := t.upgrade_history ++ [(t.rating_kva, newR)] }

/-- Candidate filter for the upgrade step: distribution transformers with
utilization above 85%. -/
def isUpgradeCandidate (t : Transformer) : Bool :=
  decide (85 < t.capacity_utilization_pct) && t.transformer_type == "distribution"

/-! ## Payment simulator (v1.1 `generate_bill_payments`) -/

/-- The bill fields the payment simulator reads (dates as day numbers). -/
structure BillLite where
  total : ℚ
  within : ℚ
  after : ℚ
  issue : ℤ
  due : ℤ
deriving DecidableEq

/-- The random draws one payment consumes, in source order. -/
structure PaymentDraws where
  paidDraw : ℚ
  timingDraw : ℚ
  daysBefore : ℤ
  daysAfter7 : ℤ
  daysAfter30 : ℤ
  lateMult : ℚ
  clampDays : ℤ
  partDraw : ℚ
  partFrac : ℚ
deriving DecidableEq

/-- A generated payment record (monetary/status fields). -/
structure Payment where
  payment_status : String
  payment_date : Option ℤ
  paid_amount : ℚ
  outstanding_amount : ℚ
deriving DecidableEq

/-- The pre-rounding paid amount of one payment: the due-basis selected by
the timing bucket (within-due amount / after-due amount / after-due amount
× extra late multiplier), optionally scaled by a partial-payment factor;
0 for an unpaid bill. -/
def rawPaid (b : BillLite) (d : PaymentDraws) : ℚ :=
  if d.paidDraw < 85/100 then
    let base :=
      if d.timingDraw < 60/100 then b.within
      else if d.timingDraw < 85/100 then b.after
      else b.after * d.lateMult
    if d.partDraw < 5/100 then base * d.partFrac else base
  else 0

/-- Payment date: before/after the due date per the timing bucket, clamped
to not precede the issue date; `none` for an unpaid bill. -/
def paymentDate (b : BillLite) (d : PaymentDraws) : Option ℤ :=
  if d.paidDraw < 85/100 then
    let date0 :=
      if d.timingDraw < 60/100 then b.due - d.daysBefore
      else if d.timingDraw < 85/100 then b.due + d.daysAfter7
      else b.due + d.daysAfter30
    some (if date0 < b.issue then b.issue + d.clampDays else date0)
  else none

/-- One iteration of v1.1's `generate_bill_payments` loop (status, date
and amounts; method/transaction id omitted). -/
def generate_bill_payment (b : BillLite) (d : PaymentDraws) : Payment :=
  if d.paidDraw < 85/100 then
    { payment_status := if d.partDraw < 5/100 then "Partial" else "Paid"
      payment_date := paymentDate b d
      paid_amount := rnd2 (rawPaid b d)
      outstanding_amount := rnd2 (b.total - rawPaid b d) }
  else
    { payment_status := "Unpaid"
      payment_date := none
      paid_amount := 0
      outstanding_amount := rnd2 (b.total - 0) }

/-! ## Meter-number creation paths (v1.2) -/

/-- The identifier fields relevant to uniqueness and replacement chains. -/
structure MeterId where
  meter_number : String
  meter_generation : ℕ
deriving DecidableEq

/-- `_generate_new_meter`'s `while True` retry loop over a stream of
candidate draws: the first draw not already present in the population. -/
def freshMeterNumber (existing : List String) : List String → Option String
  | [] => none
  | d :: rest => if existing.contains d then freshMeterNumber existing rest else some d

/-- `_replace_meter`: the successor meter takes the next random draw as
its number — with no membership test against the population — and
generation + 1. -/
def replace_meter (old : MeterId) (draw : String) : MeterId :=
  ⟨draw, old.meter_generation + 1⟩

/-- `generate_initial_meters` (v1.2 line 267): the seeding path likewise
assigns the raw draw with no membership test. -/
def seedMeterNumber (draw : String) : String := draw

/-! ## Theorems: rounding -/

theorem floor_le_rhe (q : ℚ) : ⌊q⌋ ≤ rhe q := by
  unfold rhe
  split
  · exact le_refl _
  · split
    · exact le_of_lt (lt_add_one _)
    · split
      · exact le_refl _
      · exact le_of_lt (lt_add_one _)

theorem rhe_le_floor_add_one (q : ℚ) : rhe q ≤ ⌊q⌋ + 1 := by
  unfold rhe
  split
  · exact le_of_lt (lt_add_one _)
  · split
    · exact le_refl _
    · split
      · exact le_of_lt (lt_add_one _)
      · exact le_refl _

theorem rhe_mono {x y : ℚ} (h : x ≤ y) : rhe x ≤ rhe y := by
  rcases lt_or_eq_of_le (Int.floor_le_floor h) with hf | hf
  · calc rhe x ≤ ⌊x⌋ + 1 := rhe_le_floor_add_one x
      _ ≤ ⌊y⌋ := hf
      _ ≤ rhe y := floor_le_rhe y
  · unfold rhe
    rw [hf]
    by_cases hx1 : x - (⌊y⌋ : ℚ) < 1/2
    · rw [if_pos hx1]
      have := floor_le_rhe y
      unfold rhe at this
      exact this
    · rw [if_neg hx1]
      have hy1 : ¬ (y - (⌊y⌋ : ℚ) < 1/2) := by
        push_neg at hx1 ⊢
        linarith
      rw [if_neg hy1]
      by_cases hx2 : (1:ℚ)/2 < x - (⌊y⌋ : ℚ)
      · rw [if_pos hx2, if_pos (show (1:ℚ)/2 < y - (⌊y⌋ : ℚ) by linarith)]
      · rw [if_neg hx2]
        by_cases hy2 : (1:ℚ)/2 < y - (⌊y⌋ : ℚ)
        · rw [if_pos hy2]
          split
          · exact le_of_lt (lt_add_one _)
          · exact le_refl _
        · rw [if_neg hy2]

theorem rnd2_mono {x y : ℚ} (h : x ≤ y) : rnd2 x ≤ rnd2 y := by
  unfold rnd2
  have h1 := rhe_mono (show x * 100 ≤ y * 100 by linarith)
  have h2 : (rhe (x * 100) : ℚ) ≤ (rhe (y * 100) : ℚ) := by exact_mod_cast h1
  linarith

theorem rnd3_mono {x y : ℚ} (h : x ≤ y) : rnd3 x ≤ rnd3 y := by
  unfold rnd3
  have h1 := rhe_mono (show x * 1000 ≤ y * 1000 by linarith)
  have h2 : (rhe (x * 1000) : ℚ) ≤ (rhe (y * 1000) : ℚ) := by exact_mod_cast h1
  linarith

example : classifyIssue issueProbs_v11 (1/100) = some .missing_reading := by
  norm_num [classifyIssue, classifyFrom, issueProbs_v11]
example : classifyIssue issueProbs_v11 (21/1000) = some .negative_reading := by
  norm_num [classifyIssue, classifyFrom, issueProbs_v11]
example : classifyIssue issueProbs_v11 (99/100) = none := by
  norm_num [classifyIssue, classifyFrom, issueProbs_v11]
example : classifyIssue issueProbs_v12 (99/1000) = some .reverse_energy := by
  norm_num [classifyIssue, classifyFrom, issueProbs_v12, issueProbs_v11]

theorem rnd2_zero : rnd2 0 = 0 := by
  norm_num [rnd2, rhe]

/-- Any draw below the first band's probability classifies as a missing
reading, in both generators (v1.2's table extends v1.1's). -/
theorem classify_missing_v11 {r : ℚ} (h : r < 2/100) :
    classifyIssue issueProbs_v11 r = some .missing_reading := by
  simp only [classifyIssue, issueProbs_v11, classifyFrom]
  rw [if_pos (by linarith)]

theorem classify_missing_v12 {r : ℚ} (h : r < 2/100) :
    classifyIssue issueProbs_v12 r = some .missing_reading := by
  simp only [classifyIssue, issueProbs_v12, issueProbs_v11, List.cons_append,
    List.nil_append, classifyFrom]
  rw [if_pos (by linarith)]

/-- In every branch of v1.2's step, the emitted register field is the
3-decimal rounding of the new carried register. -/
theorem step_v12_reading_eq (cum c r : ℚ) :
    (step_v12 cum c r).1.reading_kwh = rnd3 (step_v12 cum c r).2 := by
  unfold step_v12
  split <;> rfl

/-- A v1.2 step that comes out flagged "Normal" advanced the carried
register by exactly the consumption draw. -/
theorem step_v12_normal_state (cum c r : ℚ)
    (h : (step_v12 cum c r).1.flag = "Normal") :
    (step_v12 cum c r).2 = cum + c := by
  unfold step_v12 at h ⊢
  rcases he : classifyIssue issueProbs_v12 r with _ | i
  · rfl
  · rw [he] at h
    cases i <;> first
      | exact absurd h (show ("Missing Reading" : String) ≠ "Normal" by decide)
      | exact absurd h (show ("Negative Reading" : String) ≠ "Normal" by decide)
      | exact absurd h (show ("Zero Reading" : String) ≠ "Normal" by decide)
      | exact absurd h (show ("Abnormal Spike" : String) ≠ "Normal" by decide)
      | exact absurd h (show ("Voltage Sag" : String) ≠ "Normal" by decide)
      | exact absurd h (show ("Frequency Variation" : String) ≠ "Normal" by decide)
      | exact absurd h (show ("Signal Drop" : String) ≠ "Normal" by decide)
      | exact absurd h (show ("Battery Fault" : String) ≠ "Normal" by decide)
      | exact absurd h (show ("Meter Tamper" : String) ≠ "Normal" by decide)
      | exact absurd h (show ("Reverse Energy" : String) ≠ "Normal" by decide)

example : rawVariable_v11 250 "A-1a" 3 = 3591/2 := by
  norm_num [rawVariable_v11, tariffCfg_v11, slabCharges, strHas, hasSubChars, startsWithChars]

example : specSlabVariableCharges 250 = 1900 := by
  norm_num [specSlabVariableCharges, slabCharges]

example : monthlyConsumption_v12 [⟨10, 2, "Voltage Sag"⟩, ⟨13, 3, "Normal"⟩] = 5 := by
  norm_num [monthlyConsumption_v12, List.filter,
    show ("Voltage Sag" == "Normal") = false from rfl,
    show ("Normal" == "Normal") = true from rfl]

example : claimConsumption [⟨10, 2, "Voltage Sag"⟩, ⟨13, 3, "Normal"⟩] = 3 := by
  norm_num [claimConsumption, List.filter,
    show ("Voltage Sag" == "Normal") = false from rfl,
    show ("Normal" == "Normal") = true from rfl]

/-! ## Claim theorems -/

/-- C5: a distribution transformer rated 500 kVA with utilization `u`
selected for upgrade gets rating 750 (the catalog's next tier), its
utilization becomes exactly `u × 500/750`, and exactly one history entry
(500, 750) is appended; only transformers with utilization above 85% are
upgrade candidates; a rating with no catalog tier upgrades to 1.5 × the
old rating. -/
theorem c5_transformer_upgrade (t : Transformer) (h : t.rating_kva = 500) :
    (upgradeTransformer t).rating_kva = 750 ∧
    (upgradeTransformer t).capacity_utilization_pct =
      t.capacity_utilization_pct * (500 / 750) ∧
    (upgradeTransformer t).upgrade_history = t.upgrade_history ++ [(500, 750)] ∧
    (∀ t' : Transformer, isUpgradeCandidate t' = true →
      85 < t'.capacity_utilization_pct) ∧
    (∀ old : ℚ, findTier old distUpgradeTiers = none →
      upgradeRating old = old * (3/2)) := by
  have h750 : upgradeRating 500 = 750 := by
    norm_num [upgradeRating, findTier, distUpgradeTiers]
  refine ⟨?_, ?_, ?_, ?_, ?_⟩
  · simp [upgradeTransformer, h, h750]
  · simp [upgradeTransformer, h, h750]
  · simp [upgradeTransformer, h, h750]
  · intro t' ht'
    simp only [isUpgradeCandidate, Bool.and_eq_true, decide_eq_true_eq] at ht'
    exact ht'.1
  · intro old hold
    unfold upgradeRating
    rw [hold]

theorem c5_witness :
    ((⟨500, 90, "distribution", []⟩ : Transformer).rating_kva = 500) ∧
    ((upgradeTransformer ⟨500, 90, "distribution", []⟩).rating_kva = 750 ∧
     (upgradeTransformer ⟨500, 90, "distribution", []⟩).capacity_utilization_pct =
       (⟨500, 90, "distribution", []⟩ : Transformer).capacity_utilization_pct * (500 / 750) ∧
     (upgradeTransformer ⟨500, 90, "distribution", []⟩).upgrade_history =
       (⟨500, 90, "distribution", []⟩ : Transformer).upgrade_history ++ [(500, 750)] ∧
     (∀ t' : Transformer, isUpgradeCandidate t' = true →
       85 < t'.capacity_utilization_pct) ∧
     (∀ old : ℚ, findTier old distUpgradeTiers = none →
       upgradeRating old = old * (3/2))) :=
  ⟨rfl, c5_transformer_upgrade ⟨500, 90, "distribution", []⟩ rfl⟩

/-- C8 (counterexample): the replacement path does not check the drawn
meter number against the population — a draw that collides with an
existing meter's number yields two meters sharing that number, refuting
"every meter-creation path yields a meter number distinct from every
meter already in the population". -/
theorem c8_counterexample :
    (replace_meter ⟨"M000", 1⟩ "M111").meter_number ∈ ["M111"] ∧
    seedMeterNumber "M111" ∈ ["M111"] := by
  constructor <;> simp [replace_meter, seedMeterNumber]

/-- C8 (amended): only the new-connection path (`_generate_new_meter`)
guarantees a fresh meter number, via its retry loop; the replacement and
seeding paths assign the raw draw unchecked (so a colliding draw
duplicates a number), and replacement increments the generation
counter. -/
theorem c8_meter_number_paths (existing draws : List String) (m : String)
    (h : freshMeterNumber existing draws = some m) :
    existing.contains m = false ∧
    (∀ (old : MeterId) (d : String),
      (replace_meter old d).meter_number = d ∧
      seedMeterNumber d = d ∧
      (replace_meter old d).meter_generation = old.meter_generation + 1) := by
  refine ⟨?_, fun old d => ⟨rfl, rfl, rfl⟩⟩
  induction draws with
  | nil => simp [freshMeterNumber] at h
  | cons d rest ih =>
    unfold freshMeterNumber at h
    by_cases hc : existing.contains d
    · rw [if_pos (by exact_mod_cast hc)] at h
      exact ih h
    · rw [if_neg (by exact_mod_cast hc)] at h
      cases h
      exact Bool.not_eq_true _ ▸ (by exact_mod_cast hc)

theorem c8_witness :
    (freshMeterNumber ["M111"] ["M111", "M222"] = some "M222") ∧
    (["M111"].contains "M222" = false ∧
     (∀ (old : MeterId) (d : String),
       (replace_meter old d).meter_number = d ∧
       seedMeterNumber d = d ∧
       (replace_meter old d).meter_generation = old.meter_generation + 1)) :=
  ⟨rfl, c8_meter_number_paths ["M111"] ["M111", "M222"] "M222" rfl⟩

/-- C2 (code bug): for tariff A-1 at 250 units the claim (and the code's
own slab comments, "Up to 100 units / 101-200 units / 201-300 units")
give variable charges 100×5.79 + 100×8.11 + 50×10.20 = 1900.00, but
`calculate_bill` treats each slab's cumulative upper bound as a width
(`min(remaining, limit)`) and computes 100×5.79 + 150×8.11 = 1795.50.
The fixed charge for a 3 kW load is 50 as claimed. -/
theorem c2_slab_code_vs_doc :
    (calculate_bill_v11 250 "A-1a" 3 false false).variable_charges = 3591/2 ∧
    (calculate_bill_v11 250 "A-1a" 3 false false).fixed_charges = 50 ∧
    specSlabVariableCharges 250 = 1900 ∧
    ((3591 : ℚ)/2 ≠ 1900) := by
  refine ⟨?_, ?_, ?_, by norm_num⟩
  · show rnd2 (rawVariable_v11 250 "A-1a" 3) = 3591/2
    norm_num [rawVariable_v11, tariffCfg_v11, slabCharges, strHas, hasSubChars,
      startsWithChars, rnd2, rhe]
  · show rnd2 (rawFixed_v11 "A-1a" 3) = 50
    norm_num [rawFixed_v11, tariffCfg_v11, strHas, hasSubChars, startsWithChars,
      rnd2, rhe]
  · norm_num [specSlabVariableCharges, slabCharges]

/-- C9: in v1.1's reading generator, a reading classified "Normal"
advances the running cumulative register by exactly twice the drawn
interval consumption (the draw is added once before the defect
classification and again in the Normal branch), and the emitted record
reports that drawn consumption (3-dp rounded) under flag "Normal". -/
theorem c9_normal_double_advance (s : RegState) (c r spikeF : ℚ)
    (h : classifyIssue issueProbs_v11 r = none) :
    (step_v11 s c r spikeF).2.cum = s.cum + 2 * c ∧
    (step_v11 s c r spikeF).1 =
      some ⟨rnd3 (s.cum + 2 * c), rnd3 c, "Normal"⟩ := by
  have e : s.cum + c + c = s.cum + 2 * c := by ring
  unfold step_v11
  rw [h]
  exact ⟨by simp [e], by simp [e]⟩

theorem c9_witness :
    (classifyIssue issueProbs_v11 (99/100) = none) ∧
    ((step_v11 ⟨0, 0⟩ 1 (99/100) 7).2.cum = (⟨0, 0⟩ : RegState).cum + 2 * 1 ∧
     (step_v11 ⟨0, 0⟩ 1 (99/100) 7).1 =
       some ⟨rnd3 ((⟨0, 0⟩ : RegState).cum + 2 * 1), rnd3 1, "Normal"⟩) :=
  ⟨by norm_num [classifyIssue, classifyFrom, issueProbs_v11],
   c9_normal_double_advance ⟨0, 0⟩ 1 (99/100) 7
     (by norm_num [classifyIssue, classifyFrom, issueProbs_v11])⟩

/-- C4 (counterexample): in v1.1, a draw in the missing-reading band does
suppress the record, but the running cumulative register has already been
advanced by the drawn consumption — it is *not* left unchanged by the
suppressed timestamp (here it moves from 0 to 1). -/
theorem c4_counterexample :
    (step_v11 ⟨0, 0⟩ 1 (1/100) 5).1 = none ∧
    (step_v11 ⟨0, 0⟩ 1 (1/100) 5).2.cum = 1 ∧
    ((1 : ℚ) ≠ 0) := by
  have hc : classifyIssue issueProbs_v11 (1/100 : ℚ) = some .missing_reading := by
    norm_num [classifyIssue, classifyFrom, issueProbs_v11]
  refine ⟨?_, ?_, by norm_num⟩
  · unfold step_v11
    rw [hc]
  · unfold step_v11
    rw [hc]
    norm_num

/-- C4 (amended): a draw in the missing-reading band makes v1.1 emit no
record while still advancing the running register by the drawn
consumption (the suppressed energy is silently folded into the next
reading's register delta); v1.2 does not suppress at all — it emits a row
flagged "Missing Reading" with the advanced register. -/
theorem c4_missing_reading_semantics (s : RegState) (cum c r spikeF : ℚ)
    (h : r < 2/100) :
    (step_v11 s c r spikeF).1 = none ∧
    (step_v11 s c r spikeF).2 = ⟨s.cum + c, s.prev⟩ ∧
    (step_v12 cum c r).1.flag = "Missing Reading" ∧
    (step_v12 cum c r).2 = cum + c := by
  have h11 := classify_missing_v11 h
  have h12 := classify_missing_v12 h
  unfold step_v11 step_v12
  rw [h11, h12]
  exact ⟨rfl, rfl, rfl, rfl⟩

theorem c4_witness :
    ((1 : ℚ)/100 < 2/100) ∧
    ((step_v11 ⟨0, 0⟩ 1 (1/100) 5).1 = none ∧
     (step_v11 ⟨0, 0⟩ 1 (1/100) 5).2 = ⟨(⟨0, 0⟩ : RegState).cum + 1, (⟨0, 0⟩ : RegState).prev⟩ ∧
     (step_v12 0 1 (1/100)).1.flag = "Missing Reading" ∧
     (step_v12 0 1 (1/100)).2 = 0 + 1) :=
  ⟨by norm_num, c4_missing_reading_semantics ⟨0, 0⟩ 0 1 (1/100) 5 (by norm_num)⟩

/-- C7 (counterexample): at 100.1 units (tariff A-1, 3 kW load, no TV fee
or surcharge) the stored total is `round2` of the *unrounded* component
sum, 751.87, while `round2` of the stored (2-dp rounded) itemized fields
gives 751.88 — off by 0.01, far above the claimed 1e-6 tolerance. -/
theorem c7_counterexample :
    ¬ (|(calculate_bill_v11 (1001/10) "A-1a" 3 false false).total_amount -
         rnd2 ((calculate_bill_v11 (1001/10) "A-1a" 3 false false).variable_charges +
               (calculate_bill_v11 (1001/10) "A-1a" 3 false false).fixed_charges +
               (calculate_bill_v11 (1001/10) "A-1a" 3 false false).gst +
               (calculate_bill_v11 (1001/10) "A-1a" 3 false false).electricity_duty +
               (calculate_bill_v11 (1001/10) "A-1a" 3 false false).tv_fee +
               (calculate_bill_v11 (1001/10) "A-1a" 3 false false).late_payment_surcharge)| ≤
       1/1000000) := by
  have hv : rawVariable_v11 (1001/10) "A-1a" 3 = 579811/1000 := by
    norm_num [rawVariable_v11, tariffCfg_v11, slabCharges, strHas, hasSubChars,
      startsWithChars]
  have hf : rawFixed_v11 "A-1a" 3 = 50 := by
    norm_num [rawFixed_v11, tariffCfg_v11, strHas, hasSubChars, startsWithChars]
  simp only [calculate_bill_v11, hv, hf, rawGst, rawDuty, rawTvFee, rawLate]
  norm_num [rnd2, rhe]
  rw [show |(1:ℚ)/100| = 1/100 from abs_of_pos (by norm_num)]
  norm_num

/-- C7 (amended): the stored `total_amount` equals `round2` of the sum of
the *unrounded* components (variable + fixed + GST + duty + TV fee + late
surcharge); summing the stored 2-dp-rounded fields can differ from it by
up to a few hundredths. -/
theorem c7_total_amount_amended (c : ℚ) (tariff : String) (load : ℚ)
    (tv late : Bool) :
    (calculate_bill_v11 c tariff load tv late).total_amount =
      rnd2 (rawVariable_v11 c tariff load + rawFixed_v11 tariff load +
            rawGst (rawVariable_v11 c tariff load) (rawFixed_v11 tariff load) +
            rawDuty (rawVariable_v11 c tariff load) + rawTvFee tv +
            rawLate late (rawVariable_v11 c tariff load) (rawFixed_v11 tariff load)) :=
  rfl

/-- C6 (counterexample): a bill of 100.00 paid in the
"within 7 days after due date" bucket pays the after-due-date amount
105.00 — the stored paid amount exceeds the bill total, refuting
"the amount paid is at most the bill's total amount". -/
theorem c6_counterexample :
    (⟨100, 100, 105, 0, 14⟩ : BillLite).total <
      (generate_bill_payment ⟨100, 100, 105, 0, 14⟩
        ⟨1/2, 7/10, 1, 3, 10, 1, 2, 1/2, 3/4⟩).paid_amount := by
  norm_num [generate_bill_payment, rawPaid, rnd2, rhe]

/-- C6 (amended): the stored outstanding amount equals `round2` of the
bill total minus the *pre-rounding* paid amount, and the status is
'Unpaid' exactly when the paid amount is 0 and the payment date is null;
but the paid amount is *not* bounded by the bill total — payments after
the due date use the 5%-surcharged amount (late ones up to a further
×1.1). -/
theorem c6_payment_invariants (b : BillLite) (d : PaymentDraws) :
    (generate_bill_payment b d).paid_amount = rnd2 (rawPaid b d) ∧
    (generate_bill_payment b d).outstanding_amount = rnd2 (b.total - rawPaid b d) ∧
    ((generate_bill_payment b d).payment_status = "Unpaid" ↔
      (generate_bill_payment b d).paid_amount = 0 ∧
      (generate_bill_payment b d).payment_date = none) := by
  by_cases h : d.paidDraw < 85/100
  · have hpd : paymentDate b d = some
        (if (if d.timingDraw < 60/100 then b.due - d.daysBefore
             else if d.timingDraw < 85/100 then b.due + d.daysAfter7
             else b.due + d.daysAfter30) < b.issue
         then b.issue + d.clampDays
         else (if d.timingDraw < 60/100 then b.due - d.daysBefore
               else if d.timingDraw < 85/100 then b.due + d.daysAfter7
               else b.due + d.daysAfter30)) := by
      unfold paymentDate
      rw [if_pos h]
    unfold generate_bill_payment
    rw [if_pos h]
    refine ⟨rfl, rfl, ?_⟩
    constructor
    · intro hs
      exfalso
      by_cases hp : d.partDraw < 5/100
      · rw [if_pos hp] at hs
        exact absurd hs (show ("Partial" : String) ≠ "Unpaid" by decide)
      · rw [if_neg hp] at hs
        exact absurd hs (show ("Paid" : String) ≠ "Unpaid" by decide)
    · rintro ⟨-, hd⟩
      rw [hpd] at hd
      exact absurd hd (by simp)
  · unfold generate_bill_payment
    rw [if_neg h]
    have hraw : rawPaid b d = 0 := by
      unfold rawPaid
      rw [if_neg h]
    exact ⟨by rw [hraw, rnd2_zero], by rw [hraw], by simp⟩

/-- C1 (counterexample): a month whose readings are one "Voltage Sag" row
(register 10, consumption 2) followed by one "Normal" row (register 13,
consumption 3).  The claim's rule gives the register difference 3 (it is
non-negative); v1.2's reconciliation sees only one Normal reading and
instead sums the consumption of *all* rows regardless of flag, giving 5. -/
theorem c1_counterexample :
    monthlyConsumption_v12 [⟨10, 2, "Voltage Sag"⟩, ⟨13, 3, "Normal"⟩] ≠
      claimConsumption [⟨10, 2, "Voltage Sag"⟩, ⟨13, 3, "Normal"⟩] := by
  norm_num [monthlyConsumption_v12, claimConsumption, List.filter,
    show ("Voltage Sag" == "Normal") = false from rfl,
    show ("Normal" == "Normal") = true from rfl]

/-- C1 (amended): the billed consumption is clamped to `≥ 0`, but the
branches differ from the claim.  v1.2: with at least two Normal-flagged
readings it uses the difference of the first and last *Normal* register
values (falling back to the Normal-consumption sum on register decrease);
with fewer than two Normal readings it sums the interval consumption of
*all* readings whatever their flags.  v1.1: it uses the month's overall
first/last register difference whenever the register did not go backward
and did not end negative, and otherwise sums the strictly *positive*
interval consumptions of all readings (not the Normal-flagged ones). -/
theorem c1_billing_reconciliation (rs : List Reading) :
    monthlyConsumption_v12 rs = amendedConsumption_v12 rs ∧
    monthlyConsumption_v11 rs = amendedConsumption_v11 rs := by
  constructor
  · simp only [monthlyConsumption_v12, amendedConsumption_v12,
      List.countP_eq_length_filter]
    set l := rs.filter fun x => x.flag == "Normal" with hl
    set a := ((l.head?).map Reading.reading_kwh).getD 0 with ha
    set b := ((l.getLast?).map Reading.reading_kwh).getD 0 with hb
    congr 1
    by_cases h1 : 1 < l.length
    · rw [if_pos h1, if_pos (show 2 ≤ l.length by omega)]
      by_cases h2 : a ≤ b
      · rw [if_pos h2, if_pos (show (0:ℚ) ≤ b - a by linarith)]
      · rw [if_neg h2, if_neg (show ¬ (0:ℚ) ≤ b - a by
          intro hh
          exact h2 (by linarith))]
    · rw [if_neg h1, if_neg (show ¬ 2 ≤ l.length by omega)]
  · simp only [monthlyConsumption_v11, amendedConsumption_v11]
    set a := ((rs.head?).map Reading.reading_kwh).getD 0 with ha
    set b := ((rs.getLast?).map Reading.reading_kwh).getD 0 with hb
    congr 1
    by_cases h : b < a ∨ b < 0
    · rw [if_pos h, if_neg (show ¬ (a ≤ b ∧ 0 ≤ b) by
        rintro ⟨hh1, hh2⟩
        rcases h with h | h <;> linarith)]
    · rw [if_neg h, if_pos (by push_neg at h; exact h)]

/-- C3 (counterexample): with consumption/defect draws (5, Normal),
(10, Negative Reading), (1, Normal) the v1.2 run emits registers
5, -5, -4; the two Normal readings (registers 5 then -4, separated only
by the defect row) violate "later Normal register ≥ earlier Normal
register": the negative-reading defect lowers the carried register that
subsequent Normal readings build on. -/
theorem c3_counterexample :
    ¬ List.Chain' (fun a b => a.reading_kwh ≤ b.reading_kwh)
      ((run_v12 0 [(5, 99/100), (10, 21/1000), (1, 99/100)]).filter
        (fun x => x.flag == "Normal")) := by
  have h1 : classifyIssue issueProbs_v12 (99/100 : ℚ) = none := by
    norm_num [classifyIssue, classifyFrom, issueProbs_v12, issueProbs_v11]
  have h2 : classifyIssue issueProbs_v12 (21/1000 : ℚ) = some .negative_reading := by
    norm_num [classifyIssue, classifyFrom, issueProbs_v12, issueProbs_v11]
  have e1 : rnd3 ((0:ℚ) + 5) = 5 := by norm_num [rnd3, rhe]
  have e2 : rnd3 ((0:ℚ) + 5 - 10) = -5 := by norm_num [rnd3, rhe]
  have e3 : rnd3 ((0:ℚ) + 5 - 10 + 1) = -4 := by norm_num [rnd3, rhe]
  simp only [run_v12, step_v12, h1, h2, e1, e2, e3]
  norm_num [List.filter, List.chain'_cons, List.chain'_singleton,
    show ("Negative Reading" == "Normal") = false from rfl,
    show ("Normal" == "Normal") = true from rfl]

/-- C3 (amended): immediately adjacent emitted readings that are both
flagged "Normal" do satisfy register monotonicity in v1.2 — a Normal step
advances the carried register by the (non-negative) consumption draw, and
the emitted register field is its monotone 3-dp rounding. -/
theorem c3_adjacent_normal_monotone (cum : ℚ) (inputs : List (ℚ × ℚ))
    (hc : ∀ p ∈ inputs, 0 ≤ p.1) :
    List.Chain' (fun a b => a.flag = "Normal" → b.flag = "Normal" →
      a.reading_kwh ≤ b.reading_kwh) (run_v12 cum inputs) := by
  revert hc
  induction inputs generalizing cum with
  | nil =>
    intro hc
    exact List.chain'_nil
  | cons p rest ih =>
    intro hc
    obtain ⟨c, r⟩ := p
    show List.Chain' _ ((step_v12 cum c r).1 :: run_v12 (step_v12 cum c r).2 rest)
    apply List.chain'_cons'.2
    refine ⟨?_, ih (step_v12 cum c r).2
      (fun q hq => hc q (List.mem_cons_of_mem _ hq))⟩
    intro y hy _ hyN
    cases rest with
    | nil => simp [run_v12] at hy
    | cons q rest2 =>
      obtain ⟨c2, r2⟩ := q
      have hy' : (step_v12 (step_v12 cum c r).2 c2 r2).1 = y := by
        simpa [run_v12] using hy
      subst hy'
      rw [step_v12_reading_eq, step_v12_reading_eq,
        step_v12_normal_state _ c2 r2 hyN]
      apply rnd3_mono
      have h2 : 0 ≤ c2 := hc (c2, r2) (by simp)
      linarith

theorem c3_witness :
    (∀ p ∈ [((1:ℚ), (99:ℚ)/100), (2, 99/100)], 0 ≤ p.1) ∧
    List.Chain' (fun a b => a.flag = "Normal" → b.flag = "Normal" →
      a.reading_kwh ≤ b.reading_kwh) (run_v12 0 [(1, 99/100), (2, 99/100)]) :=
  ⟨by
    intro p hp
    simp only [List.mem_cons, List.not_mem_nil, or_false] at hp
    rcases hp with rfl | rfl <;> norm_num,
   c3_adjacent_normal_monotone 0 _ (by
    intro p hp
    simp only [List.mem_cons, List.not_mem_nil, or_false] at hp
    rcases hp with rfl | rfl <;> norm_num)⟩

/-! ### C10: the parallel pipeline -/

theorem fallbackConsumption_nonneg (load : ℚ) (hour : ℕ) (u : ℚ)
    (hl : 0 ≤ load) (hu : 0 ≤ u) : 0 ≤ fallbackConsumption load hour u := by
  unfold fallbackConsumption
  split_ifs <;> exact mul_nonneg hl hu

/-- The parallel single-reading step: load preserved, register advanced by
`consumption × (15/60)`, the emitted row carries that register (2-dp
rounded), the timestamp, and status "normal". -/
theorem generateSingleReading_spec (m : PMeter) (ts hour : ℕ) (u : ℚ) :
    (generateSingleReading m ts hour u).1.reading_kwh =
      rnd2 ((generateSingleReading m ts hour u).2.last_reading) ∧
    (generateSingleReading m ts hour u).1.status = "normal" ∧
    (generateSingleReading m ts hour u).1.ts = ts ∧
    (generateSingleReading m ts hour u).2.sanctioned_load_kw = m.sanctioned_load_kw ∧
    (generateSingleReading m ts hour u).2.last_reading =
      m.last_reading + fallbackConsumption m.sanctioned_load_kw hour u * (15/60) :=
  ⟨rfl, rfl, rfl, rfl, rfl⟩

theorem generateSingleReading_mono (m : PMeter) (ts hour : ℕ) (u : ℚ)
    (hl : 0 ≤ m.sanctioned_load_kw) (hu : 0 ≤ u) :
    m.last_reading ≤ (generateSingleReading m ts hour u).2.last_reading := by
  have h := fallbackConsumption_nonneg m.sanctioned_load_kw hour u hl hu
  have h2 : 0 ≤ fallbackConsumption m.sanctioned_load_kw hour u * (15/60) :=
    mul_nonneg h (by norm_num)
  show m.last_reading ≤ m.last_reading + _
  linarith

/-- C10: in the parallel per-meter pipeline, every timestamp on the
sampling grid yields exactly one emitted reading (in grid order), every
emitted reading carries status "normal", the emitted register sequence is
nondecreasing and the meter's carried `last_reading` never decreases — no
data-quality defect is injected and no reading is suppressed. -/
theorem c10_parallel_pipeline (m : PMeter) (grid : List (ℕ × ℕ × ℚ))
    (hload : 0 ≤ m.sanctioned_load_kw) (hu : ∀ g ∈ grid, 0 ≤ g.2.2) :
    (generateMonthReadings m grid).1.length = grid.length ∧
    (generateMonthReadings m grid).1.map PReading.ts = grid.map Prod.fst ∧
    (∀ x ∈ (generateMonthReadings m grid).1, x.status = "normal") ∧
    List.Chain' (fun a b => a ≤ b)
      ((generateMonthReadings m grid).1.map PReading.reading_kwh) ∧
    m.last_reading ≤ (generateMonthReadings m grid).2.last_reading := by
  revert hload hu
  induction grid generalizing m with
  | nil =>
    intro hload hu
    refine ⟨rfl, rfl, ?_, List.chain'_nil, le_refl _⟩
    intro x hx
    cases hx
  | cons g rest ih =>
    intro hload hu
    obtain ⟨ts, hour, u⟩ := g
    have hu0 : 0 ≤ u := hu (ts, hour, u) (by simp)
    have hload' : 0 ≤ (generateSingleReading m ts hour u).2.sanctioned_load_kw := hload
    obtain ⟨ihLen, ihTs, ihStatus, ihChain, ihLast⟩ :=
      ih (generateSingleReading m ts hour u).2 hload'
        (fun q hq => hu q (List.mem_cons_of_mem _ hq))
    have hcons : generateMonthReadings m ((ts, hour, u) :: rest) =
        ((generateSingleReading m ts hour u).1 ::
          (generateMonthReadings (generateSingleReading m ts hour u).2 rest).1,
         (generateMonthReadings (generateSingleReading m ts hour u).2 rest).2) := rfl
    refine ⟨?_, ?_, ?_, ?_, ?_⟩
    · rw [hcons]
      simp [ihLen]
    · rw [hcons]
      simp only [List.map_cons]
      rw [ihTs]
      rfl
    · rw [hcons]
      intro x hx
      rcases List.mem_cons.1 hx with rfl | hx2
      · rfl
      · exact ihStatus x hx2
    · rw [hcons]
      simp only [List.map_cons]
      apply List.chain'_cons'.2
      refine ⟨?_, ihChain⟩
      intro y hy
      cases rest with
      | nil => simp [generateMonthReadings] at hy
      | cons g2 rest2 =>
        obtain ⟨ts2, hour2, u2⟩ := g2
        have hy' : (generateSingleReading
            (generateSingleReading m ts hour u).2 ts2 hour2 u2).1.reading_kwh = y := by
          simpa [generateMonthReadings] using hy
        subst hy'
        show rnd2 ((generateSingleReading m ts hour u).2.last_reading) ≤
          rnd2 ((generateSingleReading
            (generateSingleReading m ts hour u).2 ts2 hour2 u2).2.last_reading)
        apply rnd2_mono
        exact generateSingleReading_mono _ ts2 hour2 u2 hload'
          (hu (ts2, hour2, u2) (by simp))
    · rw [hcons]
      exact le_trans (generateSingleReading_mono m ts hour u hload hu0) ihLast

theorem c10_witness :
    ((0:ℚ) ≤ (⟨5, 0⟩ : PMeter).sanctioned_load_kw ∧
     (∀ g ∈ [((0:ℕ), (19:ℕ), (1:ℚ)/2), (1, 3, 1/4)], (0:ℚ) ≤ g.2.2)) ∧
    ((generateMonthReadings ⟨5, 0⟩ [(0, 19, 1/2), (1, 3, 1/4)]).1.length =
       [((0:ℕ), (19:ℕ), (1:ℚ)/2), (1, 3, 1/4)].length ∧
     (generateMonthReadings ⟨5, 0⟩ [(0, 19, 1/2), (1, 3, 1/4)]).1.map PReading.ts =
       [((0:ℕ), (19:ℕ), (1:ℚ)/2), (1, 3, 1/4)].map Prod.fst ∧
     (∀ x ∈ (generateMonthReadings ⟨5, 0⟩ [(0, 19, 1/2), (1, 3, 1/4)]).1,
       x.status = "normal") ∧
     List.Chain' (fun a b => a ≤ b)
       ((generateMonthReadings ⟨5, 0⟩ [(0, 19, 1/2), (1, 3, 1/4)]).1.map
         PReading.reading_kwh) ∧
     (⟨5, 0⟩ : PMeter).last_reading ≤
       (generateMonthReadings ⟨5, 0⟩ [(0, 19, 1/2), (1, 3, 1/4)]).2.last_reading) :=
  ⟨⟨by norm_num, by
    intro g hg
    simp only [List.mem_cons, List.not_mem_nil, or_false] at hg
    rcases hg with rfl | rfl <;> norm_num⟩,
   c10_parallel_pipeline ⟨5, 0⟩ [(0, 19, 1/2), (1, 3, 1/4)] (by norm_num) (by
    intro g hg
    simp only [List.mem_cons, List.not_mem_nil, or_false] at hg
    rcases hg with rfl | rfl <;> norm_num)⟩

end IESCO
